import Mathlib

/-!
Verification of `vip/calib/rescaling.py` (frame/cube resampling and
rescaling utilities).

Shallow embedding conventions:
* numpy arrays are modelled by `NdArray`: a shape (list of dimension
  sizes) together with a total pixel map from index lists to rationals;
  real pixel intensities are modelled exactly by `Rat`.
* fallible Python code returns `Except Err _`; Python exception classes
  are modelled by the `Err` inductive.  Exact interpreter message texts
  that do not appear in the source (e.g. the message of the `TypeError`
  produced by arithmetic on `None`) are abstracted by fixed strings.
* the external numerical backends (the opencv resize kernel values, the
  scipy cubic-spline evaluator, the opencv affine-warp kernel values)
  are out of scope for this module and are abstracted as parameters of
  a `Backend` structure; the shape behaviour of `cv2.resize` and
  `cv2.warpAffine` (documented: rounded scaled size, resp. the
  explicitly requested size) is modelled concretely.
* `int(round(x))` of Python 2 (the dialect of this file, cf. `xrange`)
  rounds half away from zero: `pyRound`; on the same dialect a list has
  no `copy` method, so `scal_vec.copy()` in the list branch of
  `check_scal_vector` raises `AttributeError` before any computation.
-/

namespace VIPCalib

/-- A numpy ndarray: a shape and a total map from index lists to values. -/
structure NdArray where
  shape : List Nat
  px : List Nat → Rat

/-- Size of axis `i` (0 when the axis does not exist). -/
def dim (a : NdArray) (i : Nat) : Nat := a.shape.getD i 0

/-- Total number of entries of the array. -/
def numPixels (a : NdArray) : Nat := a.shape.foldl (fun x y => x * y) 1

/-- `a[i]` for a leading-axis index: drops the first axis. -/
def subFrame (a : NdArray) (i : Nat) : NdArray :=
  ⟨a.shape.drop 1, fun idx => a.px (i :: idx)⟩

/-- The empty array, used as an out-of-range default. -/
def zeroNd : NdArray := ⟨[], fun _ => 0⟩

/-- `np.zeros_like(a)`. -/
def zeros_like (a : NdArray) : NdArray := ⟨a.shape, fun _ => 0⟩

/-- Python exception values raised by the module or by its library calls. -/
inductive Err where
  | typeError (msg : String)
  | valueError (msg : String)
  | runtimeError (msg : String)
  | cvError (msg : String)
  | attributeError (msg : String)
  | indexError
deriving DecidableEq

/-- The shape error raised by `frame_px_resampling` (a `TypeError` in the
source; the spec calls this kind `ShapeError`). -/
def ShapeErrorFrame : Err := .typeError "Input array is not a frame or 2d array."

/-- The shape error raised by `cube_px_resampling` and `cube_rescaling`. -/
def ShapeErrorCube : Err := .typeError "Input array is not a cube or 3d array."

/-- `TypeError` raised by arithmetic on a propagated `None` reference
coordinate (exact interpreter message abstracted). -/
def NoneArithError : Err := .typeError "unsupported operand type: NoneType"

/-- `ValueError` raised by `np.amin` on an empty array. -/
def AminEmptyError : Err :=
  .valueError "zero-size array to reduction operation minimum which has no identity"

/-- `AttributeError` raised by `scal_vec.copy()` when `scal_vec` is a list:
under the Python 2 dialect of this file (cf. `xrange`) lists have no `copy`
method (it was added in Python 3.3). -/
def AttributeCopyError : Err := .attributeError "list object has no attribute copy"

/-- Python-2 `round` (half away from zero), as used by `int(round(...))`. -/
def pyRound (q : Rat) : Int :=
  if 0 ≤ q then (q + 1 / 2).floor else -((-q + 1 / 2).floor)

/-- `int(round(q))` coerced to an array dimension. -/
def pyRoundNat (q : Rat) : Nat := (pyRound q).toNat

/-- The opencv interpolation kernels selectable in `frame_px_resampling`. -/
inductive Interp where
  | nearest
  | linear
  | cubic
deriving DecidableEq

/-- The `interpolation` string dispatch of `frame_px_resampling`. -/
def interpOf (s : String) : Option Interp :=
  if s = "bilinear" then some .linear
  else if s = "bicubic" then some .cubic
  else if s = "nearneig" then some .nearest
  else none

/-- A 2x3 affine matrix in row-major order. -/
def Mat23 : Type := Rat × Rat × Rat × Rat × Rat × Rat

/-- The external numerical engines (opencv, scipy), abstracted: only their
value maps are opaque; shape behaviour is modelled in the callers. -/
structure Backend where
  /-- value of the `cv2.resize` output at an output index, given the kernel,
  the input array and the x/y scale factors -/
  resizePx : Interp → NdArray → Rat → Rat → List Nat → Rat
  /-- order-3 spline interpolation of a 2d array at a real coordinate
  (including its out-of-bounds boundary policy), as used by
  `scipy.ndimage.geometric_transform` -/
  spline : NdArray → Rat × Rat → Rat
  /-- value of the `cv2.warpAffine` output (cubic flags) at an output index -/
  warpPx : NdArray → Mat23 → List Nat → Rat

/-- A trivial backend instance (all kernels return 0), used to evaluate the
structural theorems on concrete inputs. -/
def B0 : Backend := ⟨fun _ _ _ _ _ => 0, fun _ _ => 0, fun _ _ _ => 0⟩

/-- `cv2.resize(src, (0,0), fx, fy, interpolation)`: fails on an empty input,
non-positive scale factors, or an empty computed output size; otherwise
returns an array of shape `(round(rows*fy), round(cols*fx))`. -/
def cv2_resize (B : Backend) (a : NdArray) (fx fy : Rat) (intp : Interp) :
    Except Err NdArray :=
  if dim a 0 = 0 ∨ dim a 1 = 0 then .error (.cvError "ssize is empty")
  else if fx ≤ 0 ∨ fy ≤ 0 then .error (.cvError "scale factor must be positive")
  else
    let r := pyRoundNat ((dim a 0 : Rat) * fy)
    let c := pyRoundNat ((dim a 1 : Rat) * fx)
    if r = 0 ∨ c = 0 then .error (.cvError "dsize is empty")
    else .ok ⟨[r, c], fun idx => B.resizePx intp a fx fy idx⟩

/-- `frame_px_resampling` (rescaling.py): resamples a 2d frame with opencv,
changing its size by the per-axis scale factors. -/
def frame_px_resampling (B : Backend) (array : NdArray) (scale : Rat)
    (interpolation : String) (scale_y scale_x : Option Rat) :
    Except Err NdArray :=
  if array.shape.length ≠ 2 then .error ShapeErrorFrame
  else
    let sy := scale_y.getD scale
    let sx := scale_x.getD scale
    match interpOf interpolation with
    | none => .error (.typeError "Interpolation method not recognized.")
    | some intp => cv2_resize B array sx sy intp

/-- Short-circuiting map in the `Except` monad over a list of indices,
modelling a Python `for` loop whose body may raise. -/
def exceptMap (f : Nat → Except Err NdArray) : List Nat → Except Err (List NdArray)
  | [] => .ok []
  | i :: is =>
    match f i with
    | .error e => .error e
    | .ok v =>
      match exceptMap f is with
      | .error e => .error e
      | .ok vs => .ok (v :: vs)

/-- `cube_px_resampling` (rescaling.py): allocates
`np.zeros((n, int(round(d1*sy)), int(round(d2*sx))))`, fills frame `i` with
`frame_px_resampling(array[i], ...)` and divides it by `scale**2`. -/
def cube_px_resampling (B : Backend) (array : NdArray) (scale : Rat)
    (interpolation : String) (scale_y scale_x : Option Rat) :
    Except Err NdArray :=
  if array.shape.length ≠ 3 then .error ShapeErrorCube
  else
    let sy := scale_y.getD scale
    let sx := scale_x.getD scale
    let n := dim array 0
    let outShape : List Nat :=
      [n, pyRoundNat ((dim array 1 : Rat) * sy), pyRoundNat ((dim array 2 : Rat) * sx)]
    match exceptMap
        (fun i => frame_px_resampling B (subFrame array i) scale interpolation
          (some sy) (some sx)) (List.range n) with
    | .error e => .error e
    | .ok frames =>
      .ok ⟨outShape, fun idx =>
        match idx with
        | i :: rest => (frames.getD i zeroNd).px rest / scale ^ 2
        | [] => 0⟩

/-- Python truthiness of an optional float: `None` and `0.0` are falsy. -/
def truthy : Option Rat → Bool
  | none => false
  | some r => decide (r ≠ 0)

/-- Modelled from the spec: `frame_center` (from `vip.var`, not under
`src/`) returns the geometric center `(cy, cx)` of a frame; for size `N`
along an axis the center coordinate is `(N-1)/2` (the central pixel when
`N` is odd). -/
def frame_center (a : NdArray) : Rat × Rat :=
  (((dim a 0 : Rat) - 1) / 2, ((dim a 1 : Rat) - 1) / 2)

/-- The reference-point defaulting of `frame_rescaling`:
`if not ref_y and not ref_x: ref_y, ref_x = frame_center(array)`. -/
def resolveRefs (a : NdArray) (ref_y ref_x : Option Rat) : Option Rat × Option Rat :=
  if !truthy ref_y && !truthy ref_x then
    ((some (frame_center a).1), (some (frame_center a).2))
  else (ref_y, ref_x)

/-- `_scale_func` (inner function of `frame_rescaling`): maps an output
coordinate to the source coordinate before scaling; the per-axis factors
default to `scaling` when `None`. -/
def scale_func (ref_y ref_x : Rat) (scaling : Rat)
    (scaling_y scaling_x : Option Rat) (oc : Rat × Rat) : Rat × Rat :=
  let sy := scaling_y.getD scaling
  let sx := scaling_x.getD scaling
  (ref_y + (oc.1 - ref_y) / sy, ref_x + (oc.2 - ref_x) / sx)

/-- `scipy.ndimage.geometric_transform(input, mapping, output_shape, output)`
with a mapping returning pairs: every output pixel is the spline
interpolation of the input at the mapped coordinate.  A mapping arity that
does not match the input rank is a runtime failure. -/
def scipy_geometric_transform (spline : NdArray → Rat × Rat → Rat)
    (input : NdArray) (mapping : Rat × Rat → Rat × Rat)
    (output_shape : List Nat) : Except Err NdArray :=
  if input.shape.length = 2 ∧ output_shape.length = 2 then
    .ok ⟨output_shape, fun idx =>
      spline input (mapping ((idx.getD 0 0 : Nat), ((idx.getD 1 0 : Nat) : Rat)))⟩
  else .error (.runtimeError "mapping rank does not match input rank")

/-- `cv2.warpAffine(src, M, dsize, flags=INTER_CUBIC)`: output of the
requested size `dsize = (width, height)`. -/
def cv2_warpAffine (B : Backend) (a : NdArray) (M : Mat23) (dsize : Nat × Nat) :
    NdArray :=
  ⟨[dsize.2, dsize.1], fun idx => B.warpPx a M idx⟩

/-- `frame_rescaling` (rescaling.py): rescales a frame about a reference
point keeping its dimensions, with a scipy geometric-transform or an opencv
affine-warp backend.  Note: the source performs no dimensionality check.
A `None` reference coordinate that survives the defaulting reaches the
coordinate arithmetic of the selected backend and raises a `TypeError`
(in the geometric branch only when at least one output pixel forces a call
of the mapping). -/
def frame_rescaling (B : Backend) (array : NdArray) (ref_y ref_x : Option Rat)
    (scale : Rat) (method : String) (scale_y scale_x : Option Rat) :
    Except Err NdArray :=
  let refs := resolveRefs array ref_y ref_x
  if method = "geometric_transform" then
    match refs with
    | (some ry, some rx) =>
      scipy_geometric_transform B.spline array
        (scale_func ry rx scale scale_y scale_x) array.shape
    | _ =>
      if numPixels array = 0 then .ok (zeros_like array) else .error NoneArithError
  else if method = "cv2.warp_affine" then
    let sy := scale_y.getD scale
    let sx := scale_x.getD scale
    match refs with
    | (some ry, some rx) =>
      .ok (cv2_warpAffine B array
        (sx, 0, (1 - sx) * rx, 0, sy, (1 - sy) * ry)
        (dim array 1, dim array 0))
    | _ => .error NoneArithError
  else
    .error (.valueError "Pick a valid method: geometric_transform or cv2.warp_affine")

/-- `l[i]` on a Python list: `IndexError` when out of range. -/
def listGet {α : Type} (l : List α) (i : Nat) : Except Err α :=
  match l.get? i with
  | some x => .ok x
  | none => .error .indexError

/-- `np.median` of a vector of values: middle element of the sorted values,
or the mean of the two middle elements for even length. -/
def np_median (l : List Rat) : Rat :=
  let s := l.insertionSort (· ≤ ·)
  let n := s.length
  if n % 2 = 1 then s.getD (n / 2) 0
  else (s.getD (n / 2 - 1) 0 + s.getD (n / 2) 0) / 2

/-- The reference-point defaulting of `cube_rescaling`:
`if not ref_y and not ref_x: ref_y, ref_x = frame_center(array[0])`, the
indexing `array[0]` raising `IndexError` on an empty leading axis. -/
def cube_resolveRefs (array : NdArray) (ref_y ref_x : Option Rat) :
    Except Err (Option Rat × Option Rat) :=
  if !truthy ref_y && !truthy ref_x then
    if dim array 0 = 0 then .error .indexError
    else
      .ok (some (frame_center (subFrame array 0)).1,
           some (frame_center (subFrame array 0)).2)
  else .ok (ref_y, ref_x)

/-- `cube_rescaling` (rescaling.py): rescales the cube frame by frame via
`frame_rescaling` with the per-frame scale `scaling_list[i]` (and optional
per-axis override lists), then median-combines the rescaled cube along the
frame axis.  The reference point defaults to the center of the first frame
when both `ref_y` and `ref_x` are falsy (`array[0]` raising `IndexError`
on an empty cube). -/
def cube_rescaling (B : Backend) (array : NdArray) (scaling_list : List Rat)
    (ref_y ref_x : Option Rat) (method : String)
    (scaling_y scaling_x : Option (List Rat)) :
    Except Err (NdArray × NdArray) :=
  if array.shape.length ≠ 3 then .error ShapeErrorCube
  else
    let n := dim array 0
    let syl : List (Option Rat) :=
      match scaling_y with
      | none => List.replicate n none
      | some l => l.map some
    let sxl : List (Option Rat) :=
      match scaling_x with
      | none => List.replicate n none
      | some l => l.map some
    match cube_resolveRefs array ref_y ref_x with
    | .error e => .error e
    | .ok (ry, rx) =>
      match exceptMap (fun i =>
          match listGet scaling_list i with
          | .error e => .error e
          | .ok s =>
            match listGet syl i with
            | .error e => .error e
            | .ok syi =>
              match listGet sxl i with
              | .error e => .error e
              | .ok sxi => frame_rescaling B (subFrame array i) ry rx s method syi sxi)
          (List.range n) with
      | .error e => .error e
      | .ok frames =>
        let array_sc : NdArray :=
          ⟨array.shape, fun idx =>
            match idx with
            | i :: rest => (frames.getD i zeroNd).px rest
            | [] => 0⟩
        let array_out : NdArray :=
          ⟨array.shape.drop 1, fun idx =>
            np_median ((List.range n).map (fun i => array_sc.px (i :: idx)))⟩
        .ok (array_sc, array_out)

/-- `np.amin` over a nonempty vector (the `[]` case never reached by the
callers below, which raise `AminEmptyError` first). -/
def listMin : List Rat → Rat
  | [] => 0
  | x :: xs => xs.foldl min x

/-- The argument of `check_scal_vector`: a Python list of floats, a 1d
`np.ndarray` of floats, or some other object. -/
inductive ScalInput where
  | list (l : List Rat)
  | array (l : List Rat)
  | scalar
deriving DecidableEq

/-- `check_scal_vector` (rescaling.py), value level: the list branch starts
with `scal_list = scal_vec.copy()`, which under the Python 2 dialect of this
file raises `AttributeError` before anything is computed (lists have no
`copy` method there); an array input is normalized exactly when its minimum
is `< 1`; any other input raises a `TypeError`; `np.amin` raises on an
empty vector. -/
def check_scal_vector (scal_vec : ScalInput) : Except Err (List Rat) :=
  match scal_vec with
  | .list _ => .error AttributeCopyError
  | .array l =>
    match l with
    | [] => .error AminEmptyError
    | _ =>
      if listMin l < 1 then .ok (l.map (fun x => x / listMin l))
      else .ok l
  | .scalar => .error (.typeError "scal_vec is neither a list or an np.ndarray")

instance {ε α : Type} [DecidableEq ε] [DecidableEq α] : DecidableEq (Except ε α) := fun a b =>
  match a, b with
  | .ok x, .ok y =>
    if h : x = y then isTrue (by rw [h]) else isFalse (by intro hc; cases hc; exact h rfl)
  | .error x, .error y =>
    if h : x = y then isTrue (by rw [h]) else isFalse (by intro hc; cases hc; exact h rfl)
  | .ok _, .error _ => isFalse (by intro hc; cases hc)
  | .error _, .ok _ => isFalse (by intro hc; cases hc)

/-- Heap observations of one `check_scal_vector` call: the returned value,
the state of the caller-owned input object after the call, and whether the
returned object is the very input object. -/
structure ScalOutcome where
  ret : Except Err (List Rat)
  inputAfter : ScalInput
  aliased : Bool
deriving DecidableEq

/-- `check_scal_vector`, instrumented for allocation behaviour: the list
branch raises `AttributeError` at `scal_vec.copy()` before any mutation, so
the input list is untouched and nothing is returned; an `np.ndarray` input
is normalized by in-place assignments `scal_vec[ii] = scal_vec[ii]/scal_min`
on the input object itself, which is then returned (the very input object,
so `aliased`). -/
def check_scal_vector_eff (scal_vec : ScalInput) : ScalOutcome :=
  match scal_vec with
  | .list l => ⟨.error AttributeCopyError, .list l, false⟩
  | .array l =>
    match l with
    | [] => ⟨.error AminEmptyError, .array l, false⟩
    | _ =>
      if listMin l < 1 then
        ⟨.ok (l.map (fun x => x / listMin l)), .array (l.map (fun x => x / listMin l)), true⟩
      else ⟨.ok l, .array l, true⟩
  | .scalar => ⟨.error (.typeError "scal_vec is neither a list or an np.ndarray"), .scalar, false⟩

attribute [local semireducible] Rat.inv Rat.mul Rat.add Rat.sub Rat.ofScientific

/- ---------------------------------------------------------------- -/
/- Helper lemmas                                                     -/
/- ---------------------------------------------------------------- -/

theorem listGet_eq_ok {α : Type} (d : α) :
    ∀ (l : List α) (i : Nat), i < l.length → listGet l i = .ok (l.getD i d)
  | [], i, h => absurd h (Nat.not_lt_zero i)
  | x :: xs, 0, _ => rfl
  | x :: xs, i + 1, h => listGet_eq_ok d xs i (Nat.lt_of_succ_lt_succ h)

theorem listGet_replicate {α : Type} (x : α) :
    ∀ (n i : Nat), i < n → listGet (List.replicate n x) i = .ok x
  | 0, i, h => absurd h (Nat.not_lt_zero i)
  | n + 1, 0, _ => rfl
  | n + 1, i + 1, h => listGet_replicate x n i (Nat.lt_of_succ_lt_succ h)

theorem range_getD {n i : Nat} (h : i < n) : (List.range n).getD i 0 = i := by
  rw [List.getD_eq_getElem?_getD, List.getElem?_range h]
  rfl

theorem exceptMap_ok_of_all {f : Nat → Except Err NdArray} :
    ∀ (l : List Nat), (∀ i ∈ l, ∃ v, f i = .ok v) →
      ∃ vs, exceptMap f l = .ok vs ∧ vs.length = l.length ∧
        ∀ k, k < l.length → f (l.getD k 0) = .ok (vs.getD k zeroNd) := by
  intro l
  induction l with
  | nil => exact fun _ => ⟨[], rfl, rfl, fun k hk => absurd hk (Nat.not_lt_zero k)⟩
  | cons i is ih =>
    intro h
    obtain ⟨v, hv⟩ := h i (List.mem_cons_self i is)
    obtain ⟨vs, hvs, hlen, hget⟩ := ih (fun j hj => h j (List.mem_cons_of_mem i hj))
    refine ⟨v :: vs, ?_, by simpa using hlen, ?_⟩
    · simp only [exceptMap, hv, hvs]
    · intro k hk
      cases k with
      | zero => exact hv
      | succ k => exact hget k (Nat.lt_of_succ_lt_succ hk)

theorem exceptMap_error_head {f : Nat → Except Err NdArray} {e : Err} {i : Nat}
    (l : List Nat) (h : f i = .error e) : exceptMap f (i :: l) = .error e := by
  simp only [exceptMap, h]

/- ---------------------------------------------------------------- -/
/- Claim theorems                                                    -/
/- ---------------------------------------------------------------- -/

/-- The shape of the array produced by a fallible call, when it succeeded. -/
def resShape (e : Except Err NdArray) : Option (List Nat) :=
  match e with
  | .ok a => some a.shape
  | .error _ => none

/-- Whether a fallible call raised one of the two dimensionality errors of
the module (the kind the spec calls `ShapeError`). -/
def isShapeErr : Except Err NdArray → Bool
  | .error e => decide (e = ShapeErrorFrame) || decide (e = ShapeErrorCube)
  | .ok _ => false

/-- Claim C3: the claim asserts that a nonempty (positive) list input is
normalized so its minimum is exactly 1 with all ratios preserved; under the
Python 2 dialect of this file the list branch of `check_scal_vector`
instead raises `AttributeError` at `scal_vec.copy()` before computing
anything, while the same values given as a 1d ndarray are normalized
exactly as the claim (and the docstring, which admits list inputs)
describes — a code bug, evaluated here at the failing input next to the
working ndarray path. -/
theorem claim_c3_list_branch_crash :
    check_scal_vector (.list [2, 1/2]) = .error AttributeCopyError ∧
    check_scal_vector (.array [2, 1/2]) = .ok [4, 1] :=
  ⟨rfl, by decide⟩

/-- Claim C8: the claim asserts the division by the minimum `m` happens iff
`m < 1` or the input was a plain list; the ndarray half is implemented
(divides when the minimum is below 1, returns the input unmodified when it
is at least 1), but under the Python 2 dialect of this file the list branch
raises `AttributeError` at `scal_vec.copy()` instead of ever dividing — a
code bug, evaluated at the failing list input together with both ndarray
cases. -/
theorem claim_c8_list_branch_crash :
    check_scal_vector (.list [3, 2]) = .error AttributeCopyError ∧
    check_scal_vector (.array [3, 2]) = .ok [3, 2] ∧
    check_scal_vector (.array [1/2, 2]) = .ok [1, 4] :=
  ⟨rfl, by decide, by decide⟩

/-- Claim C9 counterexample: on the ndarray input `[1/2, 2]`,
`check_scal_vector` returns the very input object (aliased) and the caller
sees the input mutated in place, refuting fresh allocation and input
immutability. -/
theorem claim_c9_cex :
    (check_scal_vector_eff (.array [1/2, 2])).aliased = true ∧
    (check_scal_vector_eff (.array [1/2, 2])).inputAfter ≠ ScalInput.array [1/2, 2] :=
  ⟨by decide, by decide⟩

/-- Claim C9 amended: `check_scal_vector` violates the fresh-output and
unchanged-input contract on an ndarray input: it returns the very input
object (aliased), dividing the entries of the input in place when the
minimum is below 1; a list input raises `AttributeError` at
`scal_vec.copy()` before producing any output, leaving the input list
unchanged and aliasing nothing. -/
theorem claim_c9_alias_mutation (l : List Rat) (hne : l ≠ []) :
    ((check_scal_vector_eff (.list l)).ret = .error AttributeCopyError ∧
      (check_scal_vector_eff (.list l)).inputAfter = .list l ∧
      (check_scal_vector_eff (.list l)).aliased = false) ∧
    ((check_scal_vector_eff (.array l)).aliased = true ∧
      (check_scal_vector_eff (.array l)).inputAfter =
        .array (if listMin l < 1 then l.map (fun x => x / listMin l) else l)) := by
  obtain ⟨x, xs, rfl⟩ := List.exists_cons_of_ne_nil hne
  refine ⟨⟨rfl, rfl, rfl⟩, ?_, ?_⟩
  · by_cases h : listMin (x :: xs) < 1
    · simp only [check_scal_vector_eff, if_pos h]
    · simp only [check_scal_vector_eff, if_neg h]
  · by_cases h : listMin (x :: xs) < 1
    · simp only [check_scal_vector_eff, if_pos h]
    · simp only [check_scal_vector_eff, if_neg h]

/-- Witness for the amended C9 at `[3, 1/2]`. -/
theorem claim_c9_witness :
    ((check_scal_vector_eff (.list [3, 1/2])).ret = .error AttributeCopyError ∧
      (check_scal_vector_eff (.list [3, 1/2])).inputAfter = .list [3, 1/2] ∧
      (check_scal_vector_eff (.list [3, 1/2])).aliased = false) ∧
    ((check_scal_vector_eff (.array [3, 1/2])).aliased = true ∧
      (check_scal_vector_eff (.array [3, 1/2])).inputAfter =
        .array (if listMin ([3, 1/2] : List Rat) < 1 then
          ([3, 1/2] : List Rat).map (fun x => x / listMin [3, 1/2]) else [3, 1/2])) :=
  claim_c9_alias_mutation [3, 1/2] (by decide)

theorem cv2_resize_shape (B : Backend) (a : NdArray) (fx fy : Rat) (ip : Interp)
    (h0 : dim a 0 ≠ 0) (h1 : dim a 1 ≠ 0) (hfx : 0 < fx) (hfy : 0 < fy)
    (hr : pyRoundNat ((dim a 0 : Rat) * fy) ≠ 0)
    (hc : pyRoundNat ((dim a 1 : Rat) * fx) ≠ 0) :
    cv2_resize B a fx fy ip =
      .ok ⟨[pyRoundNat ((dim a 0 : Rat) * fy), pyRoundNat ((dim a 1 : Rat) * fx)],
           fun idx => B.resizePx ip a fx fy idx⟩ := by
  simp only [cv2_resize]
  rw [if_neg (by push_neg; exact ⟨h0, h1⟩),
    if_neg (by push_neg; exact ⟨hfx, hfy⟩),
    if_neg (by push_neg; exact ⟨hr, hc⟩)]

theorem frame_px_resampling_ok (B : Backend) (a : NdArray) (r c : Nat)
    (scale : Rat) (interpolation : String) (ip : Interp) (sy sx : Option Rat)
    (ha : a.shape = [r, c]) (hi : interpOf interpolation = some ip)
    (hr : r ≠ 0) (hc : c ≠ 0) (hfy : 0 < sy.getD scale) (hfx : 0 < sx.getD scale)
    (hry : pyRoundNat ((r : Rat) * sy.getD scale) ≠ 0)
    (hrx : pyRoundNat ((c : Rat) * sx.getD scale) ≠ 0) :
    frame_px_resampling B a scale interpolation sy sx =
      .ok ⟨[pyRoundNat ((r : Rat) * sy.getD scale), pyRoundNat ((c : Rat) * sx.getD scale)],
           fun idx => B.resizePx ip a (sx.getD scale) (sy.getD scale) idx⟩ := by
  have hd0 : dim a 0 = r := by rw [dim, ha]; rfl
  have hd1 : dim a 1 = c := by rw [dim, ha]; rfl
  have hlen : a.shape.length = 2 := by rw [ha]; rfl
  simp only [frame_px_resampling, hlen, ne_eq, not_true_eq_false, if_false, hi]
  rw [cv2_resize_shape B a _ _ ip (hd0 ▸ hr) (hd1 ▸ hc) hfx hfy
    (by rw [hd0]; exact hry) (by rw [hd1]; exact hrx), hd0, hd1]

/-- Claim C1: `frame_px_resampling` returns a frame whose dimensions are
`round(dim * axis_scale)` along each axis (per-axis factors defaulting to
`scale`), and `cube_px_resampling` returns a cube with the frame count
unchanged and the same per-frame spatial dimensions. -/
theorem claim_c1_resample_shapes (B : Backend) (a2 a3 : NdArray)
    (r c n r3 c3 : Nat) (scale : Rat) (interpolation : String) (ip : Interp)
    (sy sx : Option Rat)
    (ha2 : a2.shape = [r, c]) (ha3 : a3.shape = [n, r3, c3])
    (hi : interpOf interpolation = some ip)
    (hr : r ≠ 0) (hc : c ≠ 0) (hr3 : r3 ≠ 0) (hc3 : c3 ≠ 0)
    (hfy : 0 < sy.getD scale) (hfx : 0 < sx.getD scale)
    (hry : pyRoundNat ((r : Rat) * sy.getD scale) ≠ 0)
    (hrx : pyRoundNat ((c : Rat) * sx.getD scale) ≠ 0)
    (hry3 : pyRoundNat ((r3 : Rat) * sy.getD scale) ≠ 0)
    (hrx3 : pyRoundNat ((c3 : Rat) * sx.getD scale) ≠ 0) :
    resShape (frame_px_resampling B a2 scale interpolation sy sx) =
      some [pyRoundNat ((r : Rat) * sy.getD scale),
            pyRoundNat ((c : Rat) * sx.getD scale)] ∧
    resShape (cube_px_resampling B a3 scale interpolation sy sx) =
      some [n, pyRoundNat ((r3 : Rat) * sy.getD scale),
            pyRoundNat ((c3 : Rat) * sx.getD scale)] := by
  constructor
  · rw [frame_px_resampling_ok B a2 r c scale interpolation ip sy sx ha2 hi
      hr hc hfy hfx hry hrx]
    rfl
  · have hsub : ∀ i : Nat, (subFrame a3 i).shape = [r3, c3] := by
      intro i; show a3.shape.drop 1 = [r3, c3]; rw [ha3]; rfl
    have hf : ∀ i ∈ List.range n, ∃ v,
        frame_px_resampling B (subFrame a3 i) scale interpolation
          (some (sy.getD scale)) (some (sx.getD scale)) = .ok v :=
      fun i _ => ⟨_, frame_px_resampling_ok B (subFrame a3 i) r3 c3 scale
        interpolation ip _ _ (hsub i) hi hr3 hc3 hfy hfx hry3 hrx3⟩
    obtain ⟨vs, hvs, _, _⟩ := exceptMap_ok_of_all (List.range n) hf
    have hlen : a3.shape.length = 3 := by rw [ha3]; rfl
    have hd0 : dim a3 0 = n := by rw [dim, ha3]; rfl
    have hd1 : dim a3 1 = r3 := by rw [dim, ha3]; rfl
    have hd2 : dim a3 2 = c3 := by rw [dim, ha3]; rfl
    simp only [cube_px_resampling, hlen, ne_eq, not_true_eq_false, if_false,
      hd0, hd1, hd2, hvs, resShape]

/-- Witness for C1: a 2x3 frame and a 5x2x3 cube, scale factor 2. -/
theorem claim_c1_witness :
    resShape (frame_px_resampling B0 ⟨[2, 3], fun _ => 0⟩ 2 "bicubic" none none) =
      some [pyRoundNat ((2 : Rat) * (none.getD 2)), pyRoundNat ((3 : Rat) * (none.getD 2))] ∧
    resShape (cube_px_resampling B0 ⟨[5, 2, 3], fun _ => 0⟩ 2 "bicubic" none none) =
      some [5, pyRoundNat ((2 : Rat) * (none.getD 2)), pyRoundNat ((3 : Rat) * (none.getD 2))] :=
  claim_c1_resample_shapes B0 ⟨[2, 3], fun _ => 0⟩ ⟨[5, 2, 3], fun _ => 0⟩
    2 3 5 2 3 2 "bicubic" .cubic none none rfl rfl rfl
    (by decide) (by decide) (by decide) (by decide) (by decide) (by decide)
    (by decide) (by decide) (by decide) (by decide)

/-- Claim C2: each output frame of `cube_px_resampling` is the result of
`frame_px_resampling` on the corresponding input frame alone, with every
pixel divided by `scale ^ 2` (the base scale parameter, even when per-axis
factors override it). -/
theorem claim_c2_cube_flux_division (B : Backend) (a : NdArray) (n r c : Nat)
    (scale : Rat) (interpolation : String) (ip : Interp) (sy sx : Option Rat)
    (ha : a.shape = [n, r, c]) (hi : interpOf interpolation = some ip)
    (hr : r ≠ 0) (hc : c ≠ 0) (hfy : 0 < sy.getD scale) (hfx : 0 < sx.getD scale)
    (hry : pyRoundNat ((r : Rat) * sy.getD scale) ≠ 0)
    (hrx : pyRoundNat ((c : Rat) * sx.getD scale) ≠ 0) :
    ∃ out, cube_px_resampling B a scale interpolation sy sx = .ok out ∧
      ∀ i, i < n → ∃ fr,
        frame_px_resampling B (subFrame a i) scale interpolation
          (some (sy.getD scale)) (some (sx.getD scale)) = .ok fr ∧
        ∀ rest, out.px (i :: rest) = fr.px rest / scale ^ 2 := by
  have hsub : ∀ i : Nat, (subFrame a i).shape = [r, c] := by
    intro i; show a.shape.drop 1 = [r, c]; rw [ha]; rfl
  have hf : ∀ i ∈ List.range n, ∃ v,
      frame_px_resampling B (subFrame a i) scale interpolation
        (some (sy.getD scale)) (some (sx.getD scale)) = .ok v :=
    fun i _ => ⟨_, frame_px_resampling_ok B (subFrame a i) r c scale
      interpolation ip _ _ (hsub i) hi hr hc hfy hfx hry hrx⟩
  obtain ⟨vs, hvs, hvslen, hvsget⟩ := exceptMap_ok_of_all (List.range n) hf
  have hlen : a.shape.length = 3 := by rw [ha]; rfl
  have hd0 : dim a 0 = n := by rw [dim, ha]; rfl
  have hd1 : dim a 1 = r := by rw [dim, ha]; rfl
  have hd2 : dim a 2 = c := by rw [dim, ha]; rfl
  have hcube : cube_px_resampling B a scale interpolation sy sx =
      .ok ⟨[n, pyRoundNat ((r : Rat) * sy.getD scale), pyRoundNat ((c : Rat) * sx.getD scale)],
        fun idx => match idx with
          | i :: rest => (vs.getD i zeroNd).px rest / scale ^ 2
          | [] => 0⟩ := by
    simp only [cube_px_resampling, hlen, ne_eq, not_true_eq_false, if_false, hd0, hd1, hd2, hvs]
  refine ⟨_, hcube, ?_⟩
  intro i hin
  refine ⟨vs.getD i zeroNd, ?_, fun rest => rfl⟩
  have := hvsget i (by simpa [List.length_range] using hin)
  rwa [range_getD hin] at this

/-- Witness for C2: a 2x2x3 cube, base scale 2, per-axis override on x. -/
theorem claim_c2_witness :
    ∃ out, cube_px_resampling B0 ⟨[2, 2, 3], fun _ => 1⟩ 2 "bilinear" none (some 1) = .ok out ∧
      ∀ i, i < 2 → ∃ fr,
        frame_px_resampling B0 (subFrame ⟨[2, 2, 3], fun _ => 1⟩ i) 2 "bilinear"
          (some ((none : Option Rat).getD 2)) (some ((some (1 : Rat)).getD 2)) = .ok fr ∧
        ∀ rest, out.px (i :: rest) = fr.px rest / (2 : Rat) ^ 2 :=
  claim_c2_cube_flux_division B0 ⟨[2, 2, 3], fun _ => 1⟩ 2 2 3 2 "bilinear" .linear
    none (some 1) rfl rfl (by decide) (by decide) (by decide) (by decide)
    (by decide) (by decide)

theorem resolveRefs_truthy_y (a : NdArray) (ry : Rat) (rx : Option Rat)
    (hry : ry ≠ 0) : resolveRefs a (some ry) rx = (some ry, rx) := by
  simp [resolveRefs, truthy, hry]

theorem resolveRefs_truthy_x (a : NdArray) (ry : Option Rat) (rx : Rat)
    (hrx : rx ≠ 0) : resolveRefs a ry (some rx) = (ry, some rx) := by
  cases ry with
  | none => simp [resolveRefs, truthy, hrx]
  | some y =>
    by_cases hy : y = 0
    · subst hy
      simp [resolveRefs, truthy, hrx]
    · exact resolveRefs_truthy_y a y (some rx) hy

/-- Claim C4: with `method = geometric_transform` and a truthy reference,
the output keeps the input dimensions and every output pixel `(oy, ox)` is
the cubic-spline interpolation of the input frame at the source coordinate
`(ref_y + (oy - ref_y)/scale_y, ref_x + (ox - ref_x)/scale_x)`, the
per-axis factors defaulting to `scale` when unset. -/
theorem claim_c4_geometric_source_coords (B : Backend) (a : NdArray) (r c : Nat)
    (ry rx scale : Rat) (sy sx : Option Rat)
    (ha : a.shape = [r, c]) (hry : ry ≠ 0) :
    ∃ out, frame_rescaling B a (some ry) (some rx) scale "geometric_transform" sy sx
        = .ok out ∧
      out.shape = a.shape ∧
      ∀ oy ox : Nat, out.px [oy, ox] =
        B.spline a (ry + ((oy : Rat) - ry) / sy.getD scale,
                    rx + ((ox : Rat) - rx) / sx.getD scale) := by
  have hlen : a.shape.length = 2 := by rw [ha]; rfl
  have hres := resolveRefs_truthy_y a ry (some rx) hry
  refine ⟨⟨a.shape, fun idx =>
    B.spline a (scale_func ry rx scale sy sx
      ((idx.getD 0 0 : Nat), ((idx.getD 1 0 : Nat) : Rat)))⟩, ?_, rfl, fun oy ox => rfl⟩
  simp only [frame_rescaling, hres, reduceIte, scipy_geometric_transform]
  rw [if_pos ⟨hlen, hlen⟩]

/-- Witness for C4: a 3x3 frame about the point (1, 2), scale 2 with a
per-axis override on x. -/
theorem claim_c4_witness :
    ∃ out, frame_rescaling B0 ⟨[3, 3], fun _ => 0⟩ (some 1) (some 2) 2
        "geometric_transform" none (some 3) = .ok out ∧
      out.shape = (⟨[3, 3], fun _ => 0⟩ : NdArray).shape ∧
      ∀ oy ox : Nat, out.px [oy, ox] =
        B0.spline ⟨[3, 3], fun _ => 0⟩
          (1 + ((oy : Rat) - 1) / (none.getD 2), 2 + ((ox : Rat) - 2) / ((some 3).getD 2)) :=
  claim_c4_geometric_source_coords B0 ⟨[3, 3], fun _ => 0⟩ 3 3 1 2 2 none (some 3)
    rfl (by decide)

/-- Claim C7 counterexample: on a 4x4 frame, `ref_y = 5` truthy with `ref_x`
unset is NOT replaced by the frame center: the call fails with the
None-arithmetic `TypeError`, while the call at the explicit center succeeds,
so the two are not equal as the claim (with "either") would require. -/
theorem claim_c7_cex :
    frame_rescaling B0 ⟨[4, 4], fun _ => 1⟩ (some 5) none 1 "cv2.warp_affine" none none
      = .error NoneArithError ∧
    (frame_rescaling B0 ⟨[4, 4], fun _ => 1⟩
      (some (frame_center ⟨[4, 4], fun _ => 1⟩).1)
      (some (frame_center ⟨[4, 4], fun _ => 1⟩).2) 1 "cv2.warp_affine" none none).isOk
      = true :=
  ⟨rfl, rfl⟩

theorem resolveRefs_center (a : NdArray) :
    resolveRefs a (some (frame_center a).1) (some (frame_center a).2) =
      resolveRefs a none none := by
  have h2 : resolveRefs a none none =
      (some (frame_center a).1, some (frame_center a).2) := rfl
  rw [h2]
  unfold resolveRefs
  split <;> rfl

theorem cube_resolveRefs_center (a : NdArray) (hnz : dim a 0 ≠ 0) :
    cube_resolveRefs a (some (frame_center (subFrame a 0)).1)
        (some (frame_center (subFrame a 0)).2) =
      cube_resolveRefs a none none := by
  have h2 : cube_resolveRefs a none none =
      if dim a 0 = 0 then .error .indexError
      else .ok (some (frame_center (subFrame a 0)).1,
                some (frame_center (subFrame a 0)).2) := rfl
  rw [h2, if_neg hnz]
  unfold cube_resolveRefs
  by_cases hb : (!truthy (some (frame_center (subFrame a 0)).1) &&
      !truthy (some (frame_center (subFrame a 0)).2)) = true
  · rw [if_pos hb, if_neg hnz]
  · rw [if_neg hb]

/-- Claim C7 amended: only when BOTH `ref_y` and `ref_x` are unset/falsy are
the reference coordinates replaced by the frame center, so calling
`frame_rescaling` at the explicit computed center equals omitting both refs;
`cube_rescaling` likewise defaults both refs to the center of its first
frame, applied uniformly. -/
theorem claim_c7_center_default (B : Backend) :
    (∀ (a : NdArray) (scale : Rat) (method : String) (sy sx : Option Rat),
      frame_rescaling B a (some (frame_center a).1) (some (frame_center a).2)
          scale method sy sx =
        frame_rescaling B a none none scale method sy sx) ∧
    (∀ (a : NdArray) (n : Nat) (sl : List Rat) (method : String)
        (syl sxl : Option (List Rat)), dim a 0 = n → 0 < n →
      cube_rescaling B a sl (some (frame_center (subFrame a 0)).1)
          (some (frame_center (subFrame a 0)).2) method syl sxl =
        cube_rescaling B a sl none none method syl sxl) := by
  constructor
  · intro a scale method sy sx
    simp only [frame_rescaling, resolveRefs_center]
  · intro a n sl method syl sxl hd hn
    have hnz : dim a 0 ≠ 0 := by omega
    simp only [cube_rescaling, cube_resolveRefs_center a hnz]

/-- Witness for the amended C7 on a 1x4x4 cube and a 4x4 frame. -/
theorem claim_c7_witness :
    (frame_rescaling B0 ⟨[4, 4], fun _ => 1⟩
        (some (frame_center ⟨[4, 4], fun _ => 1⟩).1)
        (some (frame_center ⟨[4, 4], fun _ => 1⟩).2) 1 "cv2.warp_affine" none none =
      frame_rescaling B0 ⟨[4, 4], fun _ => 1⟩ none none 1 "cv2.warp_affine" none none) ∧
    (cube_rescaling B0 ⟨[1, 4, 4], fun _ => 1⟩ [1]
        (some (frame_center (subFrame ⟨[1, 4, 4], fun _ => 1⟩ 0)).1)
        (some (frame_center (subFrame ⟨[1, 4, 4], fun _ => 1⟩ 0)).2)
        "cv2.warp_affine" none none =
      cube_rescaling B0 ⟨[1, 4, 4], fun _ => 1⟩ [1] none none "cv2.warp_affine" none none) :=
  ⟨(claim_c7_center_default B0).1 ⟨[4, 4], fun _ => 1⟩ 1 "cv2.warp_affine" none none,
   (claim_c7_center_default B0).2 ⟨[1, 4, 4], fun _ => 1⟩ 1 [1] "cv2.warp_affine"
     none none rfl (by decide)⟩

theorem numPixels_ne_zero (a : NdArray) (r c : Nat) (ha : a.shape = [r, c])
    (hr : r ≠ 0) (hc : c ≠ 0) : numPixels a ≠ 0 := by
  rw [numPixels, ha]
  simp [List.foldl, Nat.mul_eq_zero, hr, hc]

theorem frame_rescaling_none_x (B : Backend) (a : NdArray) (r c : Nat)
    (ry scale : Rat) (sy sx : Option Rat) (method : String)
    (ha : a.shape = [r, c]) (hr : r ≠ 0) (hc : c ≠ 0) (hry : ry ≠ 0)
    (hm : method = "geometric_transform" ∨ method = "cv2.warp_affine") :
    frame_rescaling B a (some ry) none scale method sy sx = .error NoneArithError := by
  have hres := resolveRefs_truthy_y a ry none hry
  have hpx := numPixels_ne_zero a r c ha hr hc
  rcases hm with rfl | rfl <;> simp [frame_rescaling, hres, hpx]

theorem frame_rescaling_none_y (B : Backend) (a : NdArray) (r c : Nat)
    (rx scale : Rat) (sy sx : Option Rat) (method : String)
    (ha : a.shape = [r, c]) (hr : r ≠ 0) (hc : c ≠ 0) (hrx : rx ≠ 0)
    (hm : method = "geometric_transform" ∨ method = "cv2.warp_affine") :
    frame_rescaling B a none (some rx) scale method sy sx = .error NoneArithError := by
  have hres := resolveRefs_truthy_x a none rx hrx
  have hpx := numPixels_ne_zero a r c ha hr hc
  rcases hm with rfl | rfl <;> simp [frame_rescaling, hres, hpx]

/-- Claim C10: supplying exactly one truthy reference coordinate does not
default the missing one to the frame center; the leftover `None` reaches
the coordinate arithmetic of the selected backend and the call raises the
None-arithmetic `TypeError` instead of returning a rescaled frame, both in
`frame_rescaling` and (through its per-frame calls) in `cube_rescaling`. -/
theorem claim_c10_one_sided_ref_fails (B : Backend) (a a3 : NdArray)
    (r c n : Nat) (ry scale : Rat) (sl : List Rat) (sy sx : Option Rat)
    (method : String)
    (ha : a.shape = [r, c]) (hr : r ≠ 0) (hc : c ≠ 0) (hry : ry ≠ 0)
    (hm : method = "geometric_transform" ∨ method = "cv2.warp_affine")
    (ha3 : a3.shape = [n, r, c]) (hn : 0 < n) (hsl : sl ≠ []) :
    frame_rescaling B a (some ry) none scale method sy sx = .error NoneArithError ∧
    frame_rescaling B a none (some ry) scale method sy sx = .error NoneArithError ∧
    cube_rescaling B a3 sl (some ry) none method none none = .error NoneArithError := by
  refine ⟨frame_rescaling_none_x B a r c ry scale sy sx method ha hr hc hry hm,
    frame_rescaling_none_y B a r c ry scale sy sx method ha hr hc hry hm, ?_⟩
  have hlen : a3.shape.length = 3 := by rw [ha3]; rfl
  have hd0 : dim a3 0 = n := by rw [dim, ha3]; rfl
  have hsub : (subFrame a3 0).shape = [r, c] := by
    show a3.shape.drop 1 = [r, c]; rw [ha3]; rfl
  have hcr : cube_resolveRefs a3 (some ry) none = .ok (some ry, none) := by
    simp [cube_resolveRefs, truthy, hry]
  obtain ⟨m, rfl⟩ : ∃ m, n = m + 1 := ⟨n - 1, by omega⟩
  have hf0 : (match listGet sl 0 with
      | .error e => .error e
      | .ok s =>
        match listGet (List.replicate (m + 1) (none : Option Rat)) 0 with
        | .error e => .error e
        | .ok syi =>
          match listGet (List.replicate (m + 1) (none : Option Rat)) 0 with
          | .error e => .error e
          | .ok sxi =>
            frame_rescaling B (subFrame a3 0) (some ry) none s method syi sxi)
      = (.error NoneArithError : Except Err NdArray) := by
    rw [listGet_eq_ok 0 sl 0 (List.length_pos.mpr hsl),
      listGet_replicate (none : Option Rat) (m + 1) 0 (Nat.succ_pos m)]
    exact frame_rescaling_none_x B (subFrame a3 0) r c ry (sl.getD 0 0) none none
      method hsub hr hc hry hm
  simp only [cube_rescaling, hlen, ne_eq, not_true_eq_false, if_false, hd0, hcr,
    List.range_succ_eq_map]
  rw [exceptMap_error_head (List.map Nat.succ (List.range m)) hf0]

/-- Witness for C10 on a 4x4 frame and a 1x4x4 cube with ref_y = 5 truthy. -/
theorem claim_c10_witness :
    frame_rescaling B0 ⟨[4, 4], fun _ => 1⟩ (some 5) none 1 "geometric_transform"
        none none = .error NoneArithError ∧
    frame_rescaling B0 ⟨[4, 4], fun _ => 1⟩ none (some 5) 1 "geometric_transform"
        none none = .error NoneArithError ∧
    cube_rescaling B0 ⟨[1, 4, 4], fun _ => 1⟩ [1] (some 5) none "geometric_transform"
        none none = .error NoneArithError :=
  claim_c10_one_sided_ref_fails B0 ⟨[4, 4], fun _ => 1⟩ ⟨[1, 4, 4], fun _ => 1⟩
    4 4 1 5 1 [1] none none "geometric_transform" rfl (by decide) (by decide)
    (by decide) (Or.inl rfl) rfl (by decide) (by decide)

theorem frame_rescaling_no_shape_err (B : Backend) (a : NdArray)
    (ry rx : Option Rat) (scale : Rat) (method : String) (sy sx : Option Rat) :
    isShapeErr (frame_rescaling B a ry rx scale method sy sx) = false := by
  rcases hres : resolveRefs a ry rx with ⟨oy, ox⟩
  by_cases hgt : method = "geometric_transform"
  · subst hgt
    simp only [frame_rescaling, hres, reduceIte]
    rcases oy with _ | y <;> rcases ox with _ | x
    · by_cases hz : numPixels a = 0
      · rw [if_pos hz]; rfl
      · rw [if_neg hz]; rfl
    · by_cases hz : numPixels a = 0
      · rw [if_pos hz]; rfl
      · rw [if_neg hz]; rfl
    · by_cases hz : numPixels a = 0
      · rw [if_pos hz]; rfl
      · rw [if_neg hz]; rfl
    · show isShapeErr (scipy_geometric_transform B.spline a
        (scale_func y x scale sy sx) a.shape) = false
      unfold scipy_geometric_transform
      split
      · rfl
      · rfl
  · by_cases hwa : method = "cv2.warp_affine"
    · subst hwa
      simp only [frame_rescaling, hres, reduceIte]
      rcases oy with _ | y <;> rcases ox with _ | x <;> rfl
    · simp only [frame_rescaling, hres, if_neg hgt, if_neg hwa]
      rfl

/-- Claim C6 counterexample: `frame_rescaling` applied to a 3-dimensional
array with the affine-warp backend raises nothing at all (the source has no
dimensionality check there), instead of the `ShapeError` the claim
requires of every frame-level function. -/
theorem claim_c6_cex :
    (frame_rescaling B0 ⟨[2, 2, 2], fun _ => 1⟩ (some 1) (some 1) 1
      "cv2.warp_affine" none none).isOk = true :=
  rfl

/-- Claim C6 amended: `frame_px_resampling` raises `ShapeError` on a 3d
array and the cube functions raise `ShapeError` on a 2d array, each before
any other work; `frame_rescaling`, however, performs no dimensionality
check and never raises a `ShapeError`. -/
theorem claim_c6_shape_checks (B : Backend) :
    (∀ (a : NdArray) (scale : Rat) (interpolation : String) (sy sx : Option Rat),
      a.shape.length = 3 →
      frame_px_resampling B a scale interpolation sy sx = .error ShapeErrorFrame) ∧
    (∀ (a : NdArray) (scale : Rat) (interpolation : String) (sy sx : Option Rat),
      a.shape.length = 2 →
      cube_px_resampling B a scale interpolation sy sx = .error ShapeErrorCube) ∧
    (∀ (a : NdArray) (sl : List Rat) (ry rx : Option Rat) (method : String)
        (syl sxl : Option (List Rat)),
      a.shape.length = 2 →
      cube_rescaling B a sl ry rx method syl sxl = .error ShapeErrorCube) ∧
    (∀ (a : NdArray) (ry rx : Option Rat) (scale : Rat) (method : String)
        (sy sx : Option Rat),
      isShapeErr (frame_rescaling B a ry rx scale method sy sx) = false) := by
  refine ⟨?_, ?_, ?_, fun a ry rx scale method sy sx =>
    frame_rescaling_no_shape_err B a ry rx scale method sy sx⟩
  · intro a scale interpolation sy sx h
    simp only [frame_px_resampling]
    rw [if_pos (by rw [h]; decide)]
  · intro a scale interpolation sy sx h
    simp only [cube_px_resampling]
    rw [if_pos (by rw [h]; decide)]
  · intro a sl ry rx method syl sxl h
    simp only [cube_rescaling]
    rw [if_pos (by rw [h]; decide)]

/-- Witness for the amended C6 on concrete wrong-dimension inputs. -/
theorem claim_c6_witness :
    frame_px_resampling B0 ⟨[2, 2, 2], fun _ => 1⟩ 1 "bicubic" none none
      = .error ShapeErrorFrame ∧
    cube_px_resampling B0 ⟨[2, 3], fun _ => 1⟩ 1 "bicubic" none none
      = .error ShapeErrorCube ∧
    cube_rescaling B0 ⟨[2, 3], fun _ => 1⟩ [1] none none "cv2.warp_affine" none none
      = .error ShapeErrorCube ∧
    isShapeErr (frame_rescaling B0 ⟨[2, 2, 2], fun _ => 1⟩ (some 1) (some 1) 1
      "cv2.warp_affine" none none) = false :=
  ⟨(claim_c6_shape_checks B0).1 ⟨[2, 2, 2], fun _ => 1⟩ 1 "bicubic" none none rfl,
   (claim_c6_shape_checks B0).2.1 ⟨[2, 3], fun _ => 1⟩ 1 "bicubic" none none rfl,
   (claim_c6_shape_checks B0).2.2.1 ⟨[2, 3], fun _ => 1⟩ [1] none none
     "cv2.warp_affine" none none rfl,
   (claim_c6_shape_checks B0).2.2.2 ⟨[2, 2, 2], fun _ => 1⟩ (some 1) (some 1) 1
     "cv2.warp_affine" none none⟩

theorem frame_rescaling_ok (B : Backend) (a : NdArray) (r c : Nat)
    (ry rx scale : Rat) (method : String) (sy sx : Option Rat)
    (ha : a.shape = [r, c]) (hry : ry ≠ 0)
    (hm : method = "geometric_transform" ∨ method = "cv2.warp_affine") :
    ∃ fr, frame_rescaling B a (some ry) (some rx) scale method sy sx = .ok fr ∧
      fr.shape = [r, c] := by
  have hres := resolveRefs_truthy_y a ry (some rx) hry
  have hlen : a.shape.length = 2 := by rw [ha]; rfl
  rcases hm with rfl | rfl
  · refine ⟨⟨a.shape, fun idx =>
      B.spline a (scale_func ry rx scale sy sx
        ((idx.getD 0 0 : Nat), ((idx.getD 1 0 : Nat) : Rat)))⟩, ?_, by rw [ha]⟩
    simp only [frame_rescaling, hres, reduceIte, scipy_geometric_transform]
    rw [if_pos ⟨hlen, hlen⟩]
  · refine ⟨cv2_warpAffine B a
      (sx.getD scale, 0, (1 - sx.getD scale) * rx, 0, sy.getD scale,
        (1 - sy.getD scale) * ry) (dim a 1, dim a 0), ?_, ?_⟩
    · simp only [frame_rescaling, hres]
      rw [if_neg (by decide : ¬ ("cv2.warp_affine" : String) = "geometric_transform")]
      simp only [reduceIte, if_pos trivial]
    · show [dim a 0, dim a 1] = [r, c]
      rw [dim, dim, ha]; rfl

/-- Claim C5: `cube_rescaling` returns a cube of the input shape whose frame
`i` is `frame_rescaling` of input frame `i` at that frame's scale, together
with the per-pixel median over the frame axis of that rescaled cube. -/
theorem claim_c5_cube_rescaling_median (B : Backend) (a : NdArray) (n r c : Nat)
    (sl : List Rat) (ry rx : Rat) (method : String)
    (ha : a.shape = [n, r, c]) (hry : ry ≠ 0)
    (hm : method = "geometric_transform" ∨ method = "cv2.warp_affine")
    (hsl : n ≤ sl.length) :
    ∃ sc md, cube_rescaling B a sl (some ry) (some rx) method none none
        = .ok (sc, md) ∧
      sc.shape = a.shape ∧
      (∀ i, i < n → ∃ fr,
        frame_rescaling B (subFrame a i) (some ry) (some rx) (sl.getD i 0)
          method none none = .ok fr ∧
        ∀ rest, sc.px (i :: rest) = fr.px rest) ∧
      md.shape = [r, c] ∧
      (∀ idx, md.px idx =
        np_median ((List.range n).map (fun i => sc.px (i :: idx)))) := by
  have hlen : a.shape.length = 3 := by rw [ha]; rfl
  have hd0 : dim a 0 = n := by rw [dim, ha]; rfl
  have hsub : ∀ i : Nat, (subFrame a i).shape = [r, c] := by
    intro i; show a.shape.drop 1 = [r, c]; rw [ha]; rfl
  have hcr : cube_resolveRefs a (some ry) (some rx) = .ok (some ry, some rx) := by
    simp [cube_resolveRefs, truthy, hry]
  have hf : ∀ i ∈ List.range n, ∃ v,
      (match listGet sl i with
       | .error e => .error e
       | .ok s =>
         match listGet (List.replicate n (none : Option Rat)) i with
         | .error e => .error e
         | .ok syi =>
           match listGet (List.replicate n (none : Option Rat)) i with
           | .error e => .error e
           | .ok sxi =>
             frame_rescaling B (subFrame a i) (some ry) (some rx) s method syi sxi)
        = (.ok v : Except Err NdArray) := by
    intro i hi
    have hin : i < n := List.mem_range.mp hi
    rw [listGet_eq_ok 0 sl i (lt_of_lt_of_le hin hsl),
      listGet_replicate (none : Option Rat) n i hin]
    obtain ⟨fr, hfr, _⟩ := frame_rescaling_ok B (subFrame a i) r c ry rx
      (sl.getD i 0) method none none (hsub i) hry hm
    exact ⟨fr, hfr⟩
  obtain ⟨vs, hvs, hvslen, hvsget⟩ := exceptMap_ok_of_all (List.range n) hf
  have hcube : cube_rescaling B a sl (some ry) (some rx) method none none =
      .ok (⟨a.shape, fun idx => match idx with
              | i :: rest => (vs.getD i zeroNd).px rest
              | [] => 0⟩,
           ⟨a.shape.drop 1, fun idx =>
              np_median ((List.range n).map (fun i =>
                (⟨a.shape, fun idx => match idx with
                  | i :: rest => (vs.getD i zeroNd).px rest
                  | [] => 0⟩ : NdArray).px (i :: idx)))⟩) := by
    simp only [cube_rescaling, hlen, ne_eq, not_true_eq_false, if_false, hd0,
      hcr, hvs]
  refine ⟨_, _, hcube, rfl, ?_, ?_, fun idx => rfl⟩
  · intro i hin
    refine ⟨vs.getD i zeroNd, ?_, fun rest => rfl⟩
    have h1 := hvsget i (by simpa [List.length_range] using hin)
    rw [range_getD hin, listGet_eq_ok 0 sl i (lt_of_lt_of_le hin hsl),
      listGet_replicate (none : Option Rat) n i hin] at h1
    exact h1
  · show a.shape.drop 1 = [r, c]
    rw [ha]; rfl

/-- Witness for C5: a 2x2x2 cube with per-frame scales [1, 2]. -/
theorem claim_c5_witness :
    ∃ sc md, cube_rescaling B0 ⟨[2, 2, 2], fun _ => 1⟩ [1, 2] (some 1) (some 1)
        "cv2.warp_affine" none none = .ok (sc, md) ∧
      sc.shape = (⟨[2, 2, 2], fun _ => 1⟩ : NdArray).shape ∧
      (∀ i, i < 2 → ∃ fr,
        frame_rescaling B0 (subFrame ⟨[2, 2, 2], fun _ => 1⟩ i) (some 1) (some 1)
          (([1, 2] : List Rat).getD i 0) "cv2.warp_affine" none none = .ok fr ∧
        ∀ rest, sc.px (i :: rest) = fr.px rest) ∧
      md.shape = [2, 2] ∧
      (∀ idx, md.px idx =
        np_median ((List.range 2).map (fun i => sc.px (i :: idx)))) :=
  claim_c5_cube_rescaling_median B0 ⟨[2, 2, 2], fun _ => 1⟩ 2 2 2 [1, 2] 1 1
    "cv2.warp_affine" rfl (by decide) (Or.inr rfl) (by decide)

end VIPCalib
